import Mathlib

/-!
Verification of the oponOK backend (FastAPI vehicle tyre-inspection service).

The data model follows `src/app/models.py` and `src/app/schemas.py`; the
request handlers follow `src/app/main.py`.  The database session is embedded
as an explicit record of lists (`DB`); SQLAlchemy primary-key lookups
(`db.get`) become `List.find?`, filtered queries become `List.filter`, and
`HTTPException` becomes the error side of `Except`.
-/

namespace Oponok

/-- Tyre condition enum from `models.py` (`TyreCondition`). -/
inductive TyreCondition where
  | good
  | bad
deriving DecidableEq, Repr, BEq

/-- User role enum from `models.py` (`UserRole`). -/
inductive UserRole where
  | user
  | admin
deriving DecidableEq, Repr, BEq

/-- A row of the `users` table (`models.py`, class `User`). -/
structure User where
  id : Nat
  name : String
  email : String
  phone : String
  password_hash : String
  role : UserRole
deriving DecidableEq, Repr

/-- A row of the `cars` table (`models.py`, class `Car`). -/
structure Car where
  id : Nat
  user_id : Nat
  make : String
  model : String
  year : Int
  plate : String
deriving DecidableEq, Repr

/-- A row of the `inspections` table (`models.py`, class `Inspection`).
`date` is a `DateTime`; embedded as a totally ordered timestamp. -/
structure Inspection where
  id : Nat
  car_id : Nat
  date : Nat
  frontLeft : TyreCondition
  frontRight : TyreCondition
  rearLeft : TyreCondition
  rearRight : TyreCondition
  notes : Option String
deriving DecidableEq, Repr

/-- The relational store: the three tables of `models.py`. -/
structure DB where
  users : List User
  cars : List Car
  inspections : List Inspection
deriving DecidableEq, Repr

/-- An `HTTPException(status_code, detail)` from `main.py`. -/
structure ApiError where
  status : Nat
  detail : String
deriving DecidableEq, Repr

def carNotFound : ApiError := ⟨404, "Car not found"⟩

def inspNotFound : ApiError := ⟨404, "Inspection not found"⟩

def notYourCar : ApiError := ⟨403, "Not your car"⟩

def emailInUse : ApiError := ⟨400, "Email already in use"⟩

/-- Request body of `POST /register` (`schemas.py`, `UserCreate`): the
`role` field carries its pydantic default `UserRole.user` once parsed. -/
structure UserCreate where
  name : String
  email : String
  phone : String
  role : UserRole
  password : String
deriving DecidableEq, Repr

/-- Parsing a registration body: pydantic substitutes `UserRole.user` when
the optional `role` field is omitted (`schemas.py`, `UserBase.role`). -/
def mkUserCreate (name email phone : String) (role? : Option UserRole)
    (password : String) : UserCreate :=
  ⟨name, email, phone, role?.getD .user, password⟩

/-- Response schema of `POST /register` (`schemas.py`, `UserOut`):
`id, name, email, phone, role` only — no password material. -/
structure UserOut where
  id : Nat
  name : String
  email : String
  phone : String
  role : UserRole
deriving DecidableEq, Repr

/-- Serialization of a `User` row through the `UserOut` response model. -/
def toUserOut (u : User) : UserOut :=
  ⟨u.id, u.name, u.email, u.phone, u.role⟩

/-- Request body of car create/update (`schemas.py`, `CarCreate`). -/
structure CarCreate where
  make : String
  model : String
  year : Int
  plate : String
deriving DecidableEq, Repr

/-- Request body of inspection create/update (`schemas.py`,
`InspectionCreate`). -/
structure InspectionCreate where
  date : Nat
  frontLeft : TyreCondition
  frontRight : TyreCondition
  rearLeft : TyreCondition
  rearRight : TyreCondition
  notes : Option String
deriving DecidableEq, Repr

/-- Response of `GET /me` (`schemas.py`, `MeResponse`). -/
structure MeResponse where
  id : Nat
  name : String
  email : String
  phone : String
  role : UserRole
  cars_assigned : Nat
  inspections_total : Nat
  failed_cars : Nat
deriving DecidableEq, Repr

/-- The autoincrement primary key assigned to a freshly inserted user row:
one past the largest id in the table. -/
def nextUserId (users : List User) : Nat :=
  (users.foldl (fun m u => max m u.id) 0) + 1

/-- `POST /register` (`main.py`, `register`): reject a duplicate email with
a 400 before any insert; otherwise insert a row holding the *hash* of the
password and return it through `UserOut`.  The hashing function
(`auth.hash_password`) is passed in as a parameter.  The second component
is the resulting `users` table. -/
def register (hashFn : String → String) (r : UserCreate)
    (users : List User) : Except ApiError UserOut × List User :=
  match users.find? (fun x => x.email == r.email) with
  | some _ => (.error emailInUse, users)
  | none =>
    let dbUser : User :=
      ⟨nextUserId users, r.name, r.email, r.phone, hashFn r.password, r.role⟩
    (.ok (toUserOut dbUser), users ++ [dbUser])

/-- `.order_by(Inspection.date.desc()).first()` on an already filtered
list: the first row of a stable descending sort by `date`, i.e. the first
listed inspection of maximal date. -/
def firstByDateDesc : List Inspection → Option Inspection
  | [] => none
  | i :: rest =>
    match firstByDateDesc rest with
    | none => some i
    | some j => if i.date < j.date then some j else some i

/-- The latest-inspection query of `main.py`, `me` (filter by `car_id`,
order by `date` descending, take the first row). -/
def latestInspection (db : DB) (carId : Nat) : Option Inspection :=
  firstByDateDesc (db.inspections.filter (fun i => i.car_id == carId))

/-- The tyre test of `main.py`, `me`: at least one of the four readings of
the inspection is `bad`. -/
def hasBadTyre (i : Inspection) : Bool :=
  i.frontLeft == .bad || i.frontRight == .bad ||
    i.rearLeft == .bad || i.rearRight == .bad

/-- `GET /me` (`main.py`, `me`): the identity fields plus the three
aggregates `cars_assigned`, `inspections_total`, `failed_cars`. -/
def me (u : User) (db : DB) : MeResponse :=
  let cars := db.cars.filter (fun c => c.user_id == u.id)
  let cars_assigned := cars.length
  let inspections_total :=
    match cars with
    | [] => 0
    | _ =>
      (db.inspections.filter
        (fun i => (cars.map (fun c => c.id)).contains i.car_id)).length
  let failed_cars :=
    cars.foldl
      (fun acc car =>
        match latestInspection db car.id with
        | none => acc
        | some last => if hasBadTyre last then acc + 1 else acc)
      0
  ⟨u.id, u.name, u.email, u.phone, u.role,
    cars_assigned, inspections_total, failed_cars⟩

/-- `GET /cars` (`main.py`, `list_cars`): all cars for an admin, the
caller's own cars otherwise. -/
def list_cars (u : User) (db : DB) : List Car :=
  if u.role == UserRole.admin then db.cars
  else db.cars.filter (fun c => c.user_id == u.id)

/-- `GET /cars/car_id` (`main.py`, `get_car`). -/
def get_car (carId : Nat) (u : User) (db : DB) : Except ApiError Car :=
  match db.cars.find? (fun c => c.id == carId) with
  | none => .error carNotFound
  | some car =>
    if u.role != UserRole.admin && car.user_id != u.id then
      .error notYourCar
    else .ok car

/-- `PUT /cars/car_id` (`main.py`, `update_car`): after the guard, every
field of the `CarCreate` body is written onto the row (and only those). -/
def update_car (carId : Nat) (carIn : CarCreate) (u : User) (db : DB) :
    Except ApiError (Car × DB) :=
  match db.cars.find? (fun c => c.id == carId) with
  | none => .error carNotFound
  | some car =>
    if u.role != UserRole.admin && car.user_id != u.id then
      .error notYourCar
    else
      let car2 : Car :=
        { car with make := carIn.make, model := carIn.model,
                   year := carIn.year, plate := carIn.plate }
      .ok (car2,
        { db with cars := db.cars.map (fun c => if c.id == carId then car2 else c) })

/-- `DELETE /cars/car_id` (`main.py`, `delete_car`); the relationship
cascade of `models.py` also removes the car's inspections. -/
def delete_car (carId : Nat) (u : User) (db : DB) : Except ApiError DB :=
  match db.cars.find? (fun c => c.id == carId) with
  | none => .error carNotFound
  | some car =>
    if u.role != UserRole.admin && car.user_id != u.id then
      .error notYourCar
    else
      .ok { db with
        cars := db.cars.filter (fun c => !(c.id == carId)),
        inspections := db.inspections.filter (fun i => !(i.car_id == carId)) }

/-- `GET /inspections/car_id` (`main.py`, `list_inspections`). -/
def list_inspections (carId : Nat) (u : User) (db : DB) :
    Except ApiError (List Inspection) :=
  match db.cars.find? (fun c => c.id == carId) with
  | none => .error carNotFound
  | some car =>
    if u.role != UserRole.admin && car.user_id != u.id then
      .error notYourCar
    else
      .ok ((db.inspections.filter (fun i => i.car_id == carId)).mergeSort
        (fun a b => decide (b.date ≤ a.date)))

/-- `POST /inspections/car_id` (`main.py`, `create_inspection`). -/
def create_inspection (carId : Nat) (inspIn : InspectionCreate)
    (newId : Nat) (u : User) (db : DB) : Except ApiError (Inspection × DB) :=
  match db.cars.find? (fun c => c.id == carId) with
  | none => .error carNotFound
  | some car =>
    if u.role != UserRole.admin && car.user_id != u.id then
      .error notYourCar
    else
      let insp : Inspection :=
        ⟨newId, carId, inspIn.date, inspIn.frontLeft, inspIn.frontRight,
          inspIn.rearLeft, inspIn.rearRight, inspIn.notes⟩
      .ok (insp, { db with inspections := db.inspections ++ [insp] })

/-- `PUT /inspections/inspection_id` (`main.py`, `update_inspection`):
resolve the inspection (404), then its parent car (404), then the guard
(403), then write every `InspectionCreate` field onto the row. -/
def update_inspection (inspId : Nat) (inspIn : InspectionCreate)
    (u : User) (db : DB) : Except ApiError (Inspection × DB) :=
  match db.inspections.find? (fun i => i.id == inspId) with
  | none => .error inspNotFound
  | some insp =>
    match db.cars.find? (fun c => c.id == insp.car_id) with
    | none => .error carNotFound
    | some car =>
      if u.role != UserRole.admin && car.user_id != u.id then
        .error notYourCar
      else
        let insp2 : Inspection :=
          { insp with date := inspIn.date, frontLeft := inspIn.frontLeft,
                      frontRight := inspIn.frontRight,
                      rearLeft := inspIn.rearLeft,
                      rearRight := inspIn.rearRight, notes := inspIn.notes }
        .ok (insp2,
          { db with inspections :=
              db.inspections.map (fun i => if i.id == inspId then insp2 else i) })

/-- `DELETE /inspections/inspection_id` (`main.py`, `delete_inspection`). -/
def delete_inspection (inspId : Nat) (u : User) (db : DB) :
    Except ApiError DB :=
  match db.inspections.find? (fun i => i.id == inspId) with
  | none => .error inspNotFound
  | some insp =>
    match db.cars.find? (fun c => c.id == insp.car_id) with
    | none => .error carNotFound
    | some car =>
      if u.role != UserRole.admin && car.user_id != u.id then
        .error notYourCar
      else
        .ok { db with
          inspections := db.inspections.filter (fun i => !(i.id == inspId)) }

/-- The Authorization Guard of the spec, §4.4: `canAccess(identity,
resourceOwnerId)` — admin accesses anything, a user only their own. -/
def canAccess (u : User) (resourceOwnerId : Nat) : Bool :=
  u.role == UserRole.admin || u.id == resourceOwnerId

/-- Success test for a handler result. -/
def isOk {ε α : Type} : Except ε α → Bool
  | .ok _ => true
  | .error _ => false

/-! Sample rows used by the witness theorems. -/

def uOwner : User := ⟨1, "alice", "a@x.com", "111", "h1", .user⟩

def uOther : User := ⟨2, "bob", "b@x.com", "222", "h2", .user⟩

def uAdmin : User := ⟨3, "root", "r@x.com", "333", "h3", .admin⟩

def car1 : Car := ⟨1, 1, "vw", "golf", 2010, "P1"⟩

def insp1 : Inspection := ⟨1, 1, 10, .bad, .good, .good, .good, none⟩

def insp2 : Inspection := ⟨2, 1, 20, .good, .good, .good, .good, none⟩

def sampleDB : DB := ⟨[uOwner, uOther, uAdmin], [car1], [insp1, insp2]⟩

def carIn0 : CarCreate := ⟨"bmw", "i3", 2020, "P2"⟩

def inspIn0 : InspectionCreate := ⟨30, .good, .good, .good, .good, some "ok"⟩

/-! Helper lemmas about the inline guard of the handlers. -/

/-- The handlers' inline denial test is the boolean complement of the
spec's `canAccess` guard. -/
theorem guard_complement (u : User) (ownerId : Nat) :
    (!(u.role != UserRole.admin && ownerId != u.id)) = canAccess u ownerId := by
  simp only [canAccess, Bool.not_and, bne, Bool.not_not]
  cases h1 : (u.role == UserRole.admin) <;> cases h2 : (u.id == ownerId) <;>
    simp_all [BEq.comm]


/-- C1: for every authenticated identity and every Vehicle or Inspection
read/update/delete handler applied to an existing resource (for an
inspection, with its parent car resolved), the operation succeeds exactly
when the caller is an admin or is the owner of the (transitively) owning
car — and these six handlers are all such paths. -/
theorem access_granted_iff_admin_or_owner (u : User) (db : DB)
    (carId inspId : Nat) (carIn : CarCreate) (inspIn : InspectionCreate)
    (car pcar : Car) (insp : Inspection)
    (hcar : db.cars.find? (fun c => c.id == carId) = some car)
    (hinsp : db.inspections.find? (fun i => i.id == inspId) = some insp)
    (hpcar : db.cars.find? (fun c => c.id == insp.car_id) = some pcar) :
    isOk (get_car carId u db) = canAccess u car.user_id ∧
    isOk (update_car carId carIn u db) = canAccess u car.user_id ∧
    isOk (delete_car carId u db) = canAccess u car.user_id ∧
    isOk (list_inspections carId u db) = canAccess u car.user_id ∧
    isOk (update_inspection inspId inspIn u db) = canAccess u pcar.user_id ∧
    isOk (delete_inspection inspId u db) = canAccess u pcar.user_id := by
  refine ⟨?_, ?_, ?_, ?_, ?_, ?_⟩
  · simp only [get_car, hcar]
    rw [← guard_complement u car.user_id]
    cases hcond : (u.role != UserRole.admin && car.user_id != u.id) <;>
      simp [hcond, isOk]
  · simp only [update_car, hcar]
    rw [← guard_complement u car.user_id]
    cases hcond : (u.role != UserRole.admin && car.user_id != u.id) <;>
      simp [hcond, isOk]
  · simp only [delete_car, hcar]
    rw [← guard_complement u car.user_id]
    cases hcond : (u.role != UserRole.admin && car.user_id != u.id) <;>
      simp [hcond, isOk]
  · simp only [list_inspections, hcar]
    rw [← guard_complement u car.user_id]
    cases hcond : (u.role != UserRole.admin && car.user_id != u.id) <;>
      simp [hcond, isOk]
  · simp only [update_inspection, hinsp, hpcar]
    rw [← guard_complement u pcar.user_id]
    cases hcond : (u.role != UserRole.admin && pcar.user_id != u.id) <;>
      simp [hcond, isOk]
  · simp only [delete_inspection, hinsp, hpcar]
    rw [← guard_complement u pcar.user_id]
    cases hcond : (u.role != UserRole.admin && pcar.user_id != u.id) <;>
      simp [hcond, isOk]

/-- Witness for C1 at concrete rows. -/
theorem access_granted_iff_admin_or_owner_instance :
    isOk (get_car 1 uAdmin sampleDB) = canAccess uAdmin car1.user_id ∧
    isOk (update_car 1 carIn0 uAdmin sampleDB) = canAccess uAdmin car1.user_id ∧
    isOk (delete_car 1 uAdmin sampleDB) = canAccess uAdmin car1.user_id ∧
    isOk (list_inspections 1 uAdmin sampleDB) = canAccess uAdmin car1.user_id ∧
    isOk (update_inspection 1 inspIn0 uAdmin sampleDB) = canAccess uAdmin car1.user_id ∧
    isOk (delete_inspection 1 uAdmin sampleDB) = canAccess uAdmin car1.user_id :=
  access_granted_iff_admin_or_owner uAdmin sampleDB 1 1 carIn0 inspIn0
    car1 car1 insp1 (by decide) (by decide) (by decide)

/-- C2: a targeted Vehicle/Inspection operation answers 404 when the target
is absent, for every caller; answers 403 (`Not your car`) when the target
exists but the guard denies; and the two failure statuses are distinct. -/
theorem notFound_then_forbidden (u : User) (db : DB) (carId inspId : Nat)
    (carIn : CarCreate) (inspIn : InspectionCreate) :
    (db.cars.find? (fun c => c.id == carId) = none →
       get_car carId u db = .error carNotFound ∧
       update_car carId carIn u db = .error carNotFound ∧
       delete_car carId u db = .error carNotFound ∧
       list_inspections carId u db = .error carNotFound)
    ∧ (∀ car, db.cars.find? (fun c => c.id == carId) = some car →
         canAccess u car.user_id = false →
         get_car carId u db = .error notYourCar ∧
         update_car carId carIn u db = .error notYourCar ∧
         delete_car carId u db = .error notYourCar ∧
         list_inspections carId u db = .error notYourCar)
    ∧ (db.inspections.find? (fun i => i.id == inspId) = none →
         update_inspection inspId inspIn u db = .error inspNotFound ∧
         delete_inspection inspId u db = .error inspNotFound)
    ∧ (∀ insp car, db.inspections.find? (fun i => i.id == inspId) = some insp →
         db.cars.find? (fun c => c.id == insp.car_id) = some car →
         canAccess u car.user_id = false →
         update_inspection inspId inspIn u db = .error notYourCar ∧
         delete_inspection inspId u db = .error notYourCar)
    ∧ carNotFound.status = 404 ∧ inspNotFound.status = 404
    ∧ notYourCar.status = 403 ∧ carNotFound.status ≠ notYourCar.status
    ∧ inspNotFound.status ≠ notYourCar.status := by
  refine ⟨?_, ?_, ?_, ?_, rfl, rfl, rfl, by decide, by decide⟩
  · intro h
    refine ⟨?_, ?_, ?_, ?_⟩ <;>
      simp [get_car, update_car, delete_car, list_inspections, h]
  · intro car hfind hdeny
    have hg : (u.role != UserRole.admin && car.user_id != u.id) = true := by
      have h2 := guard_complement u car.user_id
      rw [hdeny] at h2
      simpa using h2
    refine ⟨?_, ?_, ?_, ?_⟩ <;>
      simp [get_car, update_car, delete_car, list_inspections, hfind, hg]
  · intro h
    constructor <;> simp [update_inspection, delete_inspection, h]
  · intro insp car hfi hfc hdeny
    have hg : (u.role != UserRole.admin && car.user_id != u.id) = true := by
      have h2 := guard_complement u car.user_id
      rw [hdeny] at h2
      simpa using h2
    constructor <;> simp [update_inspection, delete_inspection, hfi, hfc, hg]

/-- Witness for C2 at concrete rows: missing ids answer 404 even for a
non-owner, present-but-foreign resources answer 403. -/
theorem notFound_then_forbidden_instance :
    get_car 99 uOther sampleDB = .error carNotFound ∧
    get_car 1 uOther sampleDB = .error notYourCar ∧
    update_inspection 99 inspIn0 uOther sampleDB = .error inspNotFound ∧
    update_inspection 1 inspIn0 uOther sampleDB = .error notYourCar ∧
    notYourCar.status = 403 := by
  have ha := notFound_then_forbidden uOther sampleDB 99 99 carIn0 inspIn0
  have hb := notFound_then_forbidden uOther sampleDB 1 1 carIn0 inspIn0
  refine ⟨(ha.1 (by decide)).1, (hb.2.1 car1 (by decide) (by decide)).1,
    (ha.2.2.1 (by decide)).1,
    (hb.2.2.2.1 insp1 car1 (by decide) (by decide) (by decide)).1,
    rfl⟩

/-! Aggregation lemmas for `GET /me`. -/

/-- The per-car failure test of the `me` loop body: the latest inspection
exists and has a bad tyre. -/
def carFailing (db : DB) (c : Car) : Bool :=
  match latestInspection db c.id with
  | none => false
  | some last => hasBadTyre last

theorem failed_fold_eq_countP (db : DB) :
    ∀ (l : List Car) (n : Nat),
      l.foldl
        (fun acc car =>
          match latestInspection db car.id with
          | none => acc
          | some last => if hasBadTyre last then acc + 1 else acc)
        n
      = n + l.countP (carFailing db) := by
  intro l
  induction l with
  | nil => intro n; simp
  | cons c t ih =>
    intro n
    rw [List.foldl_cons, List.countP_cons]
    cases hl : latestInspection db c.id with
    | none =>
      simp only [hl]
      rw [ih n]
      simp [carFailing, hl]
    | some last =>
      simp only [hl]
      cases hb : hasBadTyre last
      · simp only [hb, Bool.false_eq_true, if_false]
        rw [ih n]
        simp [carFailing, hl, hb]
      · simp only [hb, if_true]
        rw [ih (n + 1)]
        simp only [carFailing, hl, hb, if_true]
        omega

theorem firstByDateDesc_eq_none {l : List Inspection}
    (h : firstByDateDesc l = none) : l = [] := by
  cases l with
  | nil => rfl
  | cons i t =>
    exfalso
    unfold firstByDateDesc at h
    cases ht : firstByDateDesc t
    · simp only [ht] at h
      exact Option.some_ne_none i h
    · simp only [ht] at h
      split at h <;> simp at h

theorem firstByDateDesc_mem_max :
    ∀ (l : List Inspection) (j : Inspection),
      firstByDateDesc l = some j → j ∈ l ∧ ∀ k ∈ l, k.date ≤ j.date := by
  intro l
  induction l with
  | nil => intro j h; simp [firstByDateDesc] at h
  | cons i t ih =>
    intro j h
    unfold firstByDateDesc at h
    cases ht : firstByDateDesc t
    · simp only [ht] at h
      have hij : i = j := Option.some.inj h
      have ht' : t = [] := firstByDateDesc_eq_none ht
      subst hij
      subst ht'
      refine ⟨List.mem_singleton.mpr rfl, ?_⟩
      intro k hk
      have hk' : k = i := by simpa using hk
      simp [hk']
    · rename_i m
      simp only [ht] at h
      obtain ⟨hm, hmax⟩ := ih m ht
      by_cases hd : i.date < m.date
      · rw [if_pos hd] at h
        have hmj : m = j := Option.some.inj h
        subst hmj
        refine ⟨List.mem_cons_of_mem _ hm, ?_⟩
        intro k hk
        rcases List.mem_cons.mp hk with hk | hk
        · subst hk; exact Nat.le_of_lt hd
        · exact hmax k hk
      · rw [if_neg hd] at h
        have hij : i = j := Option.some.inj h
        subst hij
        refine ⟨List.mem_cons_self _ _, ?_⟩
        intro k hk
        rcases List.mem_cons.mp hk with hk | hk
        · subst hk; exact Nat.le_refl _
        · exact Nat.le_trans (hmax k hk) (Nat.le_of_not_lt hd)

/-- C3: `failed_cars` counts exactly the owned cars whose latest inspection
has a bad tyre, and `latestInspection` really returns an inspection of the
car of maximal date (so a later all-good inspection supersedes an earlier
failing one, and a car with no inspections is never counted). -/
theorem failed_cars_counts_latest_bad (u : User) (db : DB) :
    (me u db).failed_cars
      = (db.cars.filter (fun c => c.user_id == u.id)).countP (carFailing db)
    ∧ (∀ cid j, latestInspection db cid = some j →
        j ∈ db.inspections ∧ j.car_id = cid ∧
          ∀ k ∈ db.inspections, k.car_id = cid → k.date ≤ j.date) := by
  constructor
  · have h := failed_fold_eq_countP db (db.cars.filter (fun c => c.user_id == u.id)) 0
    simpa [me] using h
  · intro cid j h
    unfold latestInspection at h
    obtain ⟨hmem, hmax⟩ := firstByDateDesc_mem_max _ j h
    rw [List.mem_filter] at hmem
    refine ⟨hmem.1, by simpa using hmem.2, ?_⟩
    intro k hk hkc
    exact hmax k (List.mem_filter.mpr ⟨hk, by simp [hkc]⟩)

/-- Witness for C3: the owner's one car fails, as its latest (all-good)
inspection of date 20 supersedes the earlier bad one of date 10. -/
theorem failed_cars_counts_latest_bad_instance :
    (me uOwner sampleDB).failed_cars
      = (sampleDB.cars.filter (fun c => c.user_id == uOwner.id)).countP
          (carFailing sampleDB)
    ∧ insp2 ∈ sampleDB.inspections ∧ insp2.car_id = 1
    ∧ insp1.date ≤ insp2.date ∧ (me uOwner sampleDB).failed_cars = 0 := by
  have h := failed_cars_counts_latest_bad uOwner sampleDB
  have h2 := h.2 1 insp2 (by decide)
  exact ⟨h.1, h2.1, h2.2.1, h2.2.2 insp1 (by decide) (by decide), by decide⟩

/-- C4: the scoped listing query is extensionally the per-item guard
filter: an admin sees every car, a user exactly their own. -/
theorem list_cars_eq_guard_filter (u : User) (db : DB) :
    list_cars u db = db.cars.filter (fun c => canAccess u c.user_id) := by
  unfold list_cars canAccess
  cases h : (u.role == UserRole.admin)
  · simp only [h, Bool.false_or, if_false]
    apply List.filter_congr
    intro c _
    exact BEq.comm ..
  · simp [h]

/-- C5: `inspections_total` counts exactly the inspections whose parent
car is owned by the caller, and is 0 when the caller owns no cars. -/
theorem inspections_total_counts_owned (u : User) (db : DB) :
    (me u db).inspections_total
      = db.inspections.countP
          (fun i => (db.cars.filter (fun c => c.user_id == u.id)).any
            (fun c => c.id == i.car_id))
    ∧ (db.cars.filter (fun c => c.user_id == u.id) = [] →
        (me u db).inspections_total = 0) := by
  cases hcars : db.cars.filter (fun c => c.user_id == u.id) with
  | nil =>
    constructor
    · simp [me, hcars]
    · intro _; simp [me, hcars]
  | cons c0 t =>
    constructor
    · simp only [me, hcars]
      rw [← List.countP_eq_length_filter]
      apply List.countP_congr
      intro i _
      simp [List.contains_eq_any_beq, List.any_map, Function.comp, BEq.comm]
      exact or_congr eq_comm Iff.rfl
    · intro h
      exact absurd h (by simp)

/-- Witness for C5: a user owning no cars totals 0 inspections. -/
theorem inspections_total_counts_owned_instance :
    (me uOther sampleDB).inspections_total
      = sampleDB.inspections.countP
          (fun i => (sampleDB.cars.filter (fun c => c.user_id == uOther.id)).any
            (fun c => c.id == i.car_id))
    ∧ (me uOther sampleDB).inspections_total = 0 :=
  ⟨(inspections_total_counts_owned uOther sampleDB).1,
    (inspections_total_counts_owned uOther sampleDB).2 (by decide)⟩

/-- C6: registering a duplicate email fails with the 400 conflict and
leaves the user table untouched; a fresh email stores exactly one new row
holding the password's hash, and the response is the `UserOut` projection
(id, name, email, phone, role — no password material). -/
theorem register_duplicate_email (hashFn : String → String)
    (r : UserCreate) (users : List User) :
    ((users.find? (fun x => x.email == r.email)).isSome →
       register hashFn r users = (.error emailInUse, users))
    ∧ (users.find? (fun x => x.email == r.email) = none →
       register hashFn r users =
         (.ok ⟨nextUserId users, r.name, r.email, r.phone, r.role⟩,
          users ++ [⟨nextUserId users, r.name, r.email, r.phone,
                      hashFn r.password, r.role⟩])) := by
  constructor
  · intro h
    rw [Option.isSome_iff_exists] at h
    obtain ⟨x, hx⟩ := h
    simp [register, hx]
  · intro h
    simp [register, h, toUserOut]

/-- Witness for C6: re-registering `a@x.com` is rejected with the table
unchanged; registering a fresh email appends the hashed row. -/
theorem register_duplicate_email_instance :
    register (fun s => s ++ "#") ⟨"eve", "a@x.com", "9", .user, "pw"⟩
        sampleDB.users
      = (.error emailInUse, sampleDB.users)
    ∧ register (fun s => s ++ "#") ⟨"carol", "c@x.com", "4", .user, "pw"⟩
        sampleDB.users
      = (.ok ⟨4, "carol", "c@x.com", "4", .user⟩,
         sampleDB.users ++ [⟨4, "carol", "c@x.com", "4", "pw#", .user⟩]) := by
  constructor
  · exact (register_duplicate_email (fun s => s ++ "#")
      ⟨"eve", "a@x.com", "9", .user, "pw"⟩ sampleDB.users).1 (by decide)
  · have h := (register_duplicate_email (fun s => s ++ "#")
      ⟨"carol", "c@x.com", "4", .user, "pw"⟩ sampleDB.users).2 (by decide)
    simpa using h

/-- C8: on a fresh email the stored row's role is exactly the requested
role, the request succeeds, and parsing applies the pydantic default
`user` only when the field is omitted — registration takes no identity, so
nothing stops a request carrying role `admin`. -/
theorem register_role_unchecked (hashFn : String → String)
    (r : UserCreate) (users : List User)
    (h : users.find? (fun x => x.email == r.email) = none) :
    ((register hashFn r users).2.getLast?).map User.role = some r.role
    ∧ isOk (register hashFn r users).1 = true
    ∧ (∀ n e p pw, (mkUserCreate n e p none pw).role = UserRole.user)
    ∧ (∀ n e p pw ro, (mkUserCreate n e p (some ro) pw).role = ro) := by
  refine ⟨?_, ?_, fun n e p pw => rfl, fun n e p pw ro => rfl⟩
  · simp [register, h]
  · simp [register, h, isOk]

/-- Witness for C8: an unauthenticated registration with role `admin`
stores an admin account. -/
theorem register_role_unchecked_instance :
    ((register (fun s => s ++ "#")
        (mkUserCreate "eve" "e@x.com" "9" (some .admin) "pw")
        sampleDB.users).2.getLast?).map User.role = some UserRole.admin
    ∧ (mkUserCreate "eve" "e@x.com" "9" none "pw").role = UserRole.user :=
  ⟨(register_role_unchecked (fun s => s ++ "#")
      (mkUserCreate "eve" "e@x.com" "9" (some .admin) "pw")
      sampleDB.users (by decide)).1,
    (register_role_unchecked (fun s => s ++ "#")
      (mkUserCreate "eve" "e@x.com" "9" (some .admin) "pw")
      sampleDB.users (by decide)).2.2.1 "eve" "e@x.com" "9" "pw"⟩

/-- C9: a successful car update rewrites exactly `make`, `model`, `year`,
`plate` from the request body; `id` and `user_id` (the owner) survive, and
no other table changes — ownership cannot be transferred this way. -/
theorem update_car_frame (u : User) (db : DB) (carId : Nat)
    (carIn : CarCreate) (car c' : Car) (db' : DB)
    (hfind : db.cars.find? (fun c => c.id == carId) = some car)
    (hok : update_car carId carIn u db = .ok (c', db')) :
    c'.id = car.id ∧ c'.user_id = car.user_id ∧
    c'.make = carIn.make ∧ c'.model = carIn.model ∧
    c'.year = carIn.year ∧ c'.plate = carIn.plate ∧
    db'.users = db.users ∧ db'.inspections = db.inspections ∧
    db'.cars = db.cars.map (fun c => if c.id == carId then c' else c) := by
  simp only [update_car, hfind] at hok
  split at hok
  · exact absurd hok (by simp)
  · simp only [Except.ok.injEq, Prod.mk.injEq] at hok
    obtain ⟨h1, h2⟩ := hok
    subst h1
    subst h2
    simp

/-- Witness for C9 at concrete rows. -/
theorem update_car_frame_instance :
    (⟨1, 1, "bmw", "i3", 2020, "P2"⟩ : Car).id = car1.id
    ∧ (⟨1, 1, "bmw", "i3", 2020, "P2"⟩ : Car).user_id = car1.user_id
    ∧ (⟨1, 1, "bmw", "i3", 2020, "P2"⟩ : Car).make = carIn0.make
    ∧ (⟨1, 1, "bmw", "i3", 2020, "P2"⟩ : Car).model = carIn0.model
    ∧ (⟨1, 1, "bmw", "i3", 2020, "P2"⟩ : Car).year = carIn0.year
    ∧ (⟨1, 1, "bmw", "i3", 2020, "P2"⟩ : Car).plate = carIn0.plate
    ∧ (⟨sampleDB.users, [⟨1, 1, "bmw", "i3", 2020, "P2"⟩],
          sampleDB.inspections⟩ : DB).users = sampleDB.users
    ∧ (⟨sampleDB.users, [⟨1, 1, "bmw", "i3", 2020, "P2"⟩],
          sampleDB.inspections⟩ : DB).inspections = sampleDB.inspections
    ∧ (⟨sampleDB.users, [⟨1, 1, "bmw", "i3", 2020, "P2"⟩],
          sampleDB.inspections⟩ : DB).cars
        = sampleDB.cars.map
            (fun c => if c.id == 1 then ⟨1, 1, "bmw", "i3", 2020, "P2"⟩ else c) :=
  update_car_frame uOwner sampleDB 1 carIn0 car1
    ⟨1, 1, "bmw", "i3", 2020, "P2"⟩
    ⟨sampleDB.users, [⟨1, 1, "bmw", "i3", 2020, "P2"⟩], sampleDB.inspections⟩
    (by decide) rfl

/-- The foreign-key invariant of `models.py`: every inspection's `car_id`
references an existing car (`ForeignKey("cars.id")`, non-null). -/
def fkInvariant (db : DB) : Prop :=
  ∀ i ∈ db.inspections, ∃ c ∈ db.cars, c.id = i.car_id

/-- C10: under the foreign-key invariant the `Car not found` branch of the
inspection update/delete handlers is dead: they answer 404 only when the
inspection itself is absent, and that 404 is `Inspection not found`. -/
theorem inspection_car_branch_unreachable (u : User) (db : DB)
    (inspId : Nat) (inspIn : InspectionCreate) (hinv : fkInvariant db) :
    update_inspection inspId inspIn u db ≠ .error carNotFound
    ∧ delete_inspection inspId u db ≠ .error carNotFound
    ∧ (∀ e, update_inspection inspId inspIn u db = .error e → e.status = 404 →
         db.inspections.find? (fun i => i.id == inspId) = none ∧ e = inspNotFound)
    ∧ (∀ e, delete_inspection inspId u db = .error e → e.status = 404 →
         db.inspections.find? (fun i => i.id == inspId) = none ∧ e = inspNotFound) := by
  cases hfi : db.inspections.find? (fun i => i.id == inspId) with
  | none =>
    refine ⟨?_, ?_, ?_, ?_⟩
    · simp [update_inspection, hfi, carNotFound, inspNotFound]
    · simp [delete_inspection, hfi, carNotFound, inspNotFound]
    · intro e he _
      simp only [update_inspection, hfi] at he
      exact ⟨rfl, (Except.error.inj he).symm⟩
    · intro e he _
      simp only [delete_inspection, hfi] at he
      exact ⟨rfl, (Except.error.inj he).symm⟩
  | some insp =>
    have hmem : insp ∈ db.inspections := List.mem_of_find?_eq_some hfi
    obtain ⟨c, hc, hcid⟩ := hinv insp hmem
    have hsome : (db.cars.find? (fun x => x.id == insp.car_id)).isSome := by
      rw [List.find?_isSome]
      exact ⟨c, hc, by simp [hcid]⟩
    obtain ⟨car, hcar⟩ := Option.isSome_iff_exists.mp hsome
    refine ⟨?_, ?_, ?_, ?_⟩
    · simp only [update_inspection, hfi, hcar]
      split
      · simp [notYourCar, carNotFound]
      · simp
    · simp only [delete_inspection, hfi, hcar]
      split
      · simp [notYourCar, carNotFound]
      · simp
    · intro e he hstatus
      simp only [update_inspection, hfi, hcar] at he
      split at he
      · rw [← Except.error.inj he] at hstatus
        exact absurd hstatus (by simp [notYourCar])
      · exact absurd he (by simp)
    · intro e he hstatus
      simp only [delete_inspection, hfi, hcar] at he
      split at he
      · rw [← Except.error.inj he] at hstatus
        exact absurd hstatus (by simp [notYourCar])
      · exact absurd he (by simp)

/-- Witness for C10: the sample store satisfies the invariant and neither
handler can produce the dead `Car not found` error there. -/
theorem inspection_car_branch_unreachable_instance :
    update_inspection 1 inspIn0 uAdmin sampleDB ≠ .error carNotFound
    ∧ delete_inspection 1 uAdmin sampleDB ≠ .error carNotFound :=
  ⟨(inspection_car_branch_unreachable uAdmin sampleDB 1 inspIn0 (by unfold fkInvariant; decide)).1,
    (inspection_car_branch_unreachable uAdmin sampleDB 1 inspIn0 (by unfold fkInvariant; decide)).2.1⟩

/-! Token Service (spec §4.2).  The implementing module `src/app/auth.py`
is imported by `main.py` but is not among the provided sources, so the
service is modelled from the spec. -/

/-- Modelled from the spec: the only token failure kind, `InvalidToken`
(spec §4.2: signature mismatch, malformed payload and expiry in the past
all yield this same failure). The implementation in `src/app/auth.py` is
missing from the sources. -/
inductive TokenError where
  | invalidToken
deriving DecidableEq, Repr

/-- Modelled from the spec: a token is a self-contained signed claim of
subject and absolute expiry (spec §3, "Token"), or a malformed payload.
The implementation in `src/app/auth.py` is missing from the sources. -/
inductive Token where
  | signed (subject : Nat) (expiry : Nat) (sig : Nat)
  | malformed
deriving DecidableEq, Repr

/-- Modelled from the spec: the signing function over the process-wide
secret (spec §4.2); a concrete injective-enough stand-in for the HMAC of
the missing `src/app/auth.py`. -/
def sign (secret subject expiry : Nat) : Nat :=
  secret + 1000003 * subject + 1000033 * expiry

/-- Modelled from the spec: `issue(subject, ttl)` produces a signed token
embedding the subject and absolute expiry = issue-time + ttl (spec §4.2).
The implementation in `src/app/auth.py` is missing from the sources. -/
def issue (secret now subject ttl : Nat) : Token :=
  .signed subject (now + ttl) (sign secret subject (now + ttl))

/-- Modelled from the spec: `verify(token)` fails with `InvalidToken` when
the signature does not match, the payload is malformed, or the embedded
expiry is in the past relative to the verification clock; otherwise it
returns the embedded subject (spec §4.2).  The implementation in
`src/app/auth.py` is missing from the sources. -/
def verify (secret now : Nat) : Token → Except TokenError Nat
  | .malformed => .error .invalidToken
  | .signed subject expiry sig =>
    if sig = sign secret subject expiry then
      if expiry < now then .error .invalidToken else .ok subject
    else .error .invalidToken

/-- C7: round-trip of the token service — verification before the embedded
expiry returns the issued subject; past it, or on a signature mismatch or
a malformed payload, it fails, and every failure is the one `InvalidToken`
kind. -/
theorem verify_issue_roundtrip (secret subject ttl issueTime checkTime : Nat)
    (h : 0 < ttl) :
    (checkTime < issueTime + ttl →
       verify secret checkTime (issue secret issueTime subject ttl)
         = .ok subject)
    ∧ (issueTime + ttl < checkTime →
       verify secret checkTime (issue secret issueTime subject ttl)
         = .error .invalidToken)
    ∧ (∀ s e g, g ≠ sign secret s e →
       verify secret checkTime (.signed s e g) = .error .invalidToken)
    ∧ verify secret checkTime .malformed = .error .invalidToken
    ∧ (∀ t r, verify secret checkTime t = .error r → r = .invalidToken) := by
  refine ⟨?_, ?_, ?_, rfl, ?_⟩
  · intro hv
    simp only [verify, issue]
    rw [if_pos trivial, if_neg (by omega)]
  · intro hv
    simp only [verify, issue]
    rw [if_pos trivial, if_pos (by omega)]
  · intro s e g hg
    simp only [verify]
    rw [if_neg hg]
  · intro t r _
    cases r
    rfl

/-- Witness for C7 at a concrete secret, subject and clock. -/
theorem verify_issue_roundtrip_instance :
    verify 7 104 (issue 7 100 42 5) = .ok 42
    ∧ verify 7 106 (issue 7 100 42 5) = .error .invalidToken
    ∧ verify 7 104 (.signed 42 105 0) = .error .invalidToken
    ∧ verify 7 104 .malformed = .error .invalidToken := by
  have ha := verify_issue_roundtrip 7 42 5 100 104 (by decide)
  have hb := verify_issue_roundtrip 7 42 5 100 106 (by decide)
  exact ⟨ha.1 (by decide), hb.2.1 (by decide),
    ha.2.2.1 42 105 0 (by decide), ha.2.2.2.1⟩

end Oponok
